import Mathlib

/-!
Shallow embedding of the atlas-metrics-sdk metric-resolution and
historical-read pipeline (src/atlas/models.py, src/atlas/metrics.py,
src/atlas/atlas_client.py, src/atlas/rates.py), together with theorems
settling the frozen claims about it.

Python dictionaries are modelled as association lists, Python `set`s of
strings as `Finset String`, floats carried through unchanged by the
pipeline as exact rationals, and naive `datetime` values as a pair of
epoch seconds and a microsecond component.  Network calls are modelled
by passing the transport's responses in explicitly and recording each
issued call in a trace.
-/

namespace Atlas

/-- models.py `DeviceKind` (string enum). -/
inductive DeviceKind
| compressor
| evaporator
| condenser
| vessel
deriving DecidableEq, BEq

/-- The string value of a `DeviceKind` member (models.py declares it as a
`str` enum, so comparisons with plain strings compare these values). -/
def DeviceKind.toStr : DeviceKind → String
| .compressor => "compressor"
| .evaporator => "evaporator"
| .condenser => "condenser"
| .vessel => "vessel"

/-- Pydantic coercion of a plain string into `DeviceKind` (used when
metrics.py constructs `DeviceMetric(name=..., device_kind=device.kind)`
from `Device.kind`, which models.py types as a plain `str`). -/
def parseDeviceKind (s : String) : Option DeviceKind :=
  if s = "compressor" then some .compressor
  else if s = "evaporator" then some .evaporator
  else if s = "condenser" then some .condenser
  else if s = "vessel" then some .vessel
  else none

/-- models.py `AggregateBy` (string enum). -/
inductive AggregateBy
| avg
| min
| max
| first
| last
deriving DecidableEq, BEq

/-- models.py `Agent`. -/
structure Agent where
  agent_id : String
deriving DecidableEq

/-- models.py `Facility`. -/
structure Facility where
  organization_id : String
  facility_id : String
  display_name : String
  short_name : String
  address : String
  timezone : String
  agents : List Agent
deriving DecidableEq

/-- models.py `PropertyValue`. -/
structure PropertyValue where
  «alias» : String
  name : String
  kind : String
  bias : String
deriving DecidableEq

/-- models.py `Property`. -/
structure Property where
  key : String
  value : PropertyValue
deriving DecidableEq

/-- models.py `Connection` (the second, surviving declaration of that
name in models.py). -/
structure Connection where
  device_id : String
  kind : String
deriving DecidableEq

/-- models.py `Device`.  Note that `kind` is a plain string there, not a
`DeviceKind`. -/
structure Device where
  id : String
  name : String
  «alias» : String
  kind : String
  properties : List Property := []
  upstream : List Connection := []
  downstream : List Connection := []
deriving DecidableEq

/-- models.py `AnalogValues`.  Float values are carried through the
pipeline unchanged, so they are modelled as exact rationals. -/
structure AnalogValues where
  timestamps : List Int
  values : List Rat
deriving DecidableEq

/-- models.py `DiscreteValues`. -/
structure DiscreteValues where
  timestamps : List Int
  values : List Bool
deriving DecidableEq

/-- models.py `PointValues`: both variants default to `None`. -/
structure PointValues where
  analog : Option AnalogValues := none
  discrete : Option DiscreteValues := none
deriving DecidableEq

/-- models.py `HistoricalValues`; the `values` dict keyed by
`AggregateBy` is modelled as an association list. -/
structure HistoricalValues where
  point_id : String
  values : List (AggregateBy × PointValues)
deriving DecidableEq

/-- models.py `HourlyRate`. -/
structure HourlyRate where
  start : Int
  rate : Rat
deriving DecidableEq

/-- models.py `HourlyRates`. -/
structure HourlyRates where
  usage_rate : List HourlyRate := []
  maximum_demand_charge : List HourlyRate := []
  time_of_use_demand_charge : List HourlyRate := []
  day_ahead_market_rate : List HourlyRate := []
  real_time_market_rate : List HourlyRate := []
deriving DecidableEq

/-- Values of models.py `CompressorMetric`. -/
def CompressorMetricValues : List String :=
  ["DischargePressure", "DischargeTemperature", "SuctionPressure", "SuctionTemperature"]

/-- Values of models.py `CondenserMetric`. -/
def CondenserMetricValues : List String :=
  ["DischargePressure", "DischargeTemperature"]

/-- Values of models.py `EvaporatorMetric`. -/
def EvaporatorMetricValues : List String :=
  ["SupplyTemperature", "ReturnTemperature"]

/-- Values of models.py `VesselMetric`. -/
def VesselMetricValues : List String :=
  ["SuctionPressure"]

/-- models.py `device_metric_mapping`: the enumerated metric value set
for each device kind (membership in a Python string enum is a value
check). -/
def device_metric_mapping : DeviceKind → List String
| .compressor => CompressorMetricValues
| .condenser => CondenserMetricValues
| .evaporator => EvaporatorMetricValues
| .vessel => VesselMetricValues

/-- Values accepted for models.py `DeviceMetricName`, the union of the
four per-kind metric enums (pydantic validates a string against each
union member in turn, so the accepted set is the union of values). -/
def DeviceMetricNameValues : List String :=
  CompressorMetricValues ++ CondenserMetricValues ++ EvaporatorMetricValues ++ VesselMetricValues

namespace Models

/-- models.py `DeviceMetric` exactly as declared there: the `name`
field is required (typed `DeviceMetricName`) and there is no
`alias_regex` field at all. -/
structure DeviceMetric where
  name : String
  device_kind : DeviceKind
deriving DecidableEq

/-- The field names of models.py `DeviceMetric` as declared. -/
def DeviceMetric.fieldNames : List String := ["name", "device_kind"]

/-- Keyword arguments a caller may pass when constructing
`DeviceMetric(...)`, as done in src/examples/read_metrics.py. -/
structure DeviceMetricKwargs where
  name : Option String := none
  alias_regex : Option String := none
  device_kind : DeviceKind
deriving DecidableEq

/-- Pydantic validation of a `DeviceMetric(...)` construction against
the models.py declaration: `name` is a required field and must be one
of the `DeviceMetricName` union's enum values; the `alias_regex`
keyword does not correspond to any declared field and is ignored
(pydantic's default behavior for extra keyword arguments), so no
constructed instance carries it. -/
def validateDeviceMetric (kw : DeviceMetricKwargs) : Except String DeviceMetric :=
  match kw.name with
  | none => .error "Field required: name"
  | some n =>
    if DeviceMetricNameValues.contains n then
      .ok { name := n, device_kind := kw.device_kind }
    else
      .error "Input should be a valid DeviceMetricName"

end Models

/-- The `DeviceMetric` attribute set of the caller-declared metrics the
pipeline READS duck-typed (pure attribute access in `_get_alias_filters`
and `is_valid_metric`): an optional exact `name`, an optional
`alias_regex` pattern, and a device kind, as constructed by
src/examples/read_metrics.py.  (models.py declares `name` as required
and omits `alias_regex` entirely; that discrepancy is settled against
`Models.validateDeviceMetric`.  Metric records CONSTRUCTED by the
pipeline itself, at metrics.py line 163, go through the validating
models.py class and are embedded by
`MetricsReader.constructDeviceMetric` below.) -/
structure DeviceMetric where
  name : Option String := none
  alias_regex : Option String := none
  device_kind : DeviceKind
deriving DecidableEq, BEq

/-- models.py `is_valid_metric`: `metric.name in
device_metric_mapping[metric.device_kind]` — a value-based membership
test in the per-kind string enum; a missing name is not a member. -/
def is_valid_metric (metric : DeviceMetric) : Bool :=
  match metric.name with
  | some n => (device_metric_mapping metric.device_kind).contains n
  | none => false

/-! ### Regular expressions

metrics.py compiles each declared `alias_regex` with `re.compile` and
tests properties with `pattern.match(alias)`, Python's match-from-start
primitive.  The fragment of regex syntax used by this repository
(literal characters, `.`, and postfix `*`) is embedded with standard
semantics via Brzozowski derivatives. -/

/-- Regular expressions over characters. -/
inductive Regex
| fail
| eps
| dot
| char (c : Char)
| alt (r1 r2 : Regex)
| seq (r1 r2 : Regex)
| star (r : Regex)
deriving DecidableEq

/-- Whether a regex accepts the empty string. -/
def nullable : Regex → Bool
| .fail => false
| .eps => true
| .dot => false
| .char _ => false
| .alt r1 r2 => nullable r1 || nullable r2
| .seq r1 r2 => nullable r1 && nullable r2
| .star _ => true

/-- Brzozowski derivative of a regex with respect to a character. -/
def deriv : Regex → Char → Regex
| .fail, _ => .fail
| .eps, _ => .fail
| .dot, _ => .eps
| .char c, a => if a = c then .eps else .fail
| .alt r1 r2, a => .alt (deriv r1 a) (deriv r2 a)
| .seq r1 r2, a =>
  if nullable r1 then .alt (.seq (deriv r1 a) r2) (deriv r2 a)
  else .seq (deriv r1 a) r2
| .star r, a => .seq (deriv r a) (.star r)

/-- Whether a regex accepts exactly the given character list
(full-string match, Python's `re.fullmatch`). -/
def accepts : Regex → List Char → Bool
| r, [] => nullable r
| r, c :: cs => accepts (deriv r c) cs

/-- Whether some prefix of the character list is accepted: Python's
`re.match`, the match-from-start primitive used by metrics.py. -/
def matchFrom : Regex → List Char → Bool
| r, [] => nullable r
| r, c :: cs => nullable r || matchFrom (deriv r c) cs

/-- Whether the regex matches starting at any position: Python's
`re.search` (substring search, NOT what metrics.py uses). -/
def searchFrom : Regex → List Char → Bool
| r, [] => matchFrom r []
| r, l@(_ :: t) => matchFrom r l || searchFrom r t

/-- Parser for the regex fragment this repository uses: literal
characters, the wildcard `.`, and a postfix `*` on the preceding atom
(e.g. the example pattern `.*_motorCurrent`). -/
def parseChars : List Char → Regex
| [] => .eps
| '.' :: '*' :: rest => .seq (.star .dot) (parseChars rest)
| '.' :: rest => .seq .dot (parseChars rest)
| c :: '*' :: rest => .seq (.star (.char c)) (parseChars rest)
| c :: rest => .seq (.char c) (parseChars rest)

/-- `re.compile` for the embedded fragment. -/
def parseRegex (s : String) : Regex := parseChars s.data

/-- Truthiness of `pattern.match(s)`: a match object is returned (and
is truthy) exactly when some prefix of `s` matches. -/
def reMatchB (r : Regex) (s : String) : Bool := matchFrom r s.data

/-- `re.fullmatch` truthiness for comparison. -/
def reFullmatchB (r : Regex) (s : String) : Bool := accepts r s.data

/-- `re.search` truthiness for comparison. -/
def reSearchB (r : Regex) (s : String) : Bool := searchFrom r s.data

/-! ### Naive datetimes and the client's wire serialization

Python's naive `datetime` is modelled as whole epoch seconds plus a
microsecond component in `[0, 1000000)`; `timedelta` arithmetic with
whole-second deltas leaves the microsecond component unchanged. -/

/-- A naive Python `datetime`, as epoch seconds plus microseconds. -/
structure PyDatetime where
  seconds : Int
  microsecond : Nat
deriving DecidableEq

/-- Subtraction of a whole-second `timedelta` from a datetime
(`timedelta(minutes=10)` is 600 such seconds). -/
def subSeconds (d : PyDatetime) (n : Int) : PyDatetime :=
  { seconds := d.seconds - n, microsecond := d.microsecond }

/-- The decimal digit character of `n % 10`. -/
def decDigit (n : Nat) : Char := Char.ofNat (48 + n % 10)

/-- Fuel-based decimal digit rendering (structurally recursive so that
it evaluates inside the kernel); `fuel ≥ 1` more than the digit count
always suffices since `n / 10 < n` shrinks faster than the fuel. -/
def natDigitsCore : Nat → Nat → List Char
| 0, _ => []
| fuel + 1, n =>
  if n < 10 then [decDigit n]
  else natDigitsCore fuel (n / 10) ++ [decDigit n]

/-- The decimal digits of a natural number, most significant first. -/
def natDigits (n : Nat) : List Char := natDigitsCore (n + 1) n

/-- Zero-padded decimal rendering of a natural number to at least `w`
characters (the behavior of `%02d`-style fields in `strftime`). -/
def padNat (w n : Nat) : List Char :=
  List.replicate (w - (natDigits n).length) '0' ++ natDigits n

/-- `%Y` rendering of a (proleptic) year. -/
def yearChars (y : Int) : List Char :=
  if y < 0 then '-' :: padNat 4 y.natAbs else padNat 4 y.toNat

/-- Civil calendar date from a count of days since 1970-01-01
(Howard Hinnant's `civil_from_days` algorithm, which is what converting
an epoch instant to calendar fields computes). -/
def civilFromDays (z0 : Int) : Int × Nat × Nat :=
  let z := z0 + 719468
  let era := z.fdiv 146097
  let doe := (z - era * 146097).toNat
  let yoe := (doe - doe / 1460 + doe / 36524 - doe / 146096) / 365
  let y := (yoe : Int) + era * 400
  let doy := doe - (365 * yoe + yoe / 4 - yoe / 100)
  let mp := (5 * doy + 2) / 153
  let d := doy - (153 * mp + 2) / 5 + 1
  let m := if mp < 10 then mp + 3 else mp - 9
  (if m ≤ 2 then y + 1 else y, m, d)

/-- The character sequence of
`strftime("%Y-%m-%dT%H:%M:%SZ")` applied to an instant given in whole
epoch seconds: calendar date, a `T`, and the time of day at second
precision, with a literal `Z` suffix and no fractional component. -/
def isoChars (s : Int) : List Char :=
  let days := s.fdiv 86400
  let sod := (s - days * 86400).toNat
  let ymd := civilFromDays days
  List.flatten [yearChars ymd.1, ['-'], padNat 2 ymd.2.1, ['-'], padNat 2 ymd.2.2,
    ['T'], padNat 2 (sod / 3600), [':'], padNat 2 (sod % 3600 / 60),
    [':'], padNat 2 (sod % 60), ['Z']]

/-- atlas_client.py serializes every start/end bound with
`strftime("%Y-%m-%dT%H:%M:%SZ")`: only the whole-second part of the
datetime is rendered. -/
def strftimeISO (d : PyDatetime) : String := String.mk (isoChars d.seconds)

namespace AtlasClient

/-- The method names defined on atlas_client.py's `AtlasClient` class.
There is no `filter_facilities` among them. -/
def methodNames : List String :=
  ["__init__", "list_facilities", "list_devices", "get_point_ids",
   "get_historical_values", "get_hourly_rates"]

/-- The JSON payload `AtlasClient.get_historical_values` posts to
`/orgs/{org}/agents/{agent}/facility-readings` (braces shown for the
URL template only). -/
structure HistoricalValuesPayload where
  point_ids : List String
  start : String
  end_ : String
  interval : Int
  aggregate_by : List AggregateBy
  changes_only : Bool
  scaled : Bool
deriving DecidableEq

/-- Python-signature default for `interval`. -/
def default_interval : Int := 60

/-- Python-signature default for `aggregate_by`. -/
def default_aggregate_by : List AggregateBy := [.avg]

/-- Python-signature default for `changes_only`. -/
def default_changes_only : Bool := false

/-- Python-signature default for `scaled`. -/
def default_scaled : Bool := true

/-- The payload built by `AtlasClient.get_historical_values`: an
unspecified start defaults to `datetime.now() - timedelta(minutes=10)`
and an unspecified end to `datetime.now()`, both serialized with
`strftime("%Y-%m-%dT%H:%M:%SZ")`.  `now` is the current instant. -/
def get_historical_values_payload (now : PyDatetime) (point_ids : List String)
    (start end_ : Option PyDatetime) (interval : Int)
    (aggregate_by : List AggregateBy) (changes_only scaled : Bool) :
    HistoricalValuesPayload :=
  { point_ids := point_ids
    start :=
      match start with
      | some t => strftimeISO t
      | none => strftimeISO (subSeconds now (10 * 60))
    end_ :=
      match end_ with
      | some t => strftimeISO t
      | none => strftimeISO now
    interval := interval
    aggregate_by := aggregate_by
    changes_only := changes_only
    scaled := scaled }

/-- The payload of a call that leaves `interval`, `aggregate_by`,
`changes_only` and `scaled` at their Python-signature defaults. -/
def get_historical_values_payload_defaulted (now : PyDatetime)
    (point_ids : List String) (start end_ : Option PyDatetime) :
    HistoricalValuesPayload :=
  get_historical_values_payload now point_ids start end_
    default_interval default_aggregate_by default_changes_only default_scaled

end AtlasClient

/-! ### The metrics pipeline (metrics.py) -/

/-- metrics.py `Filter`. -/
structure Filter where
  facilities : List String
  metrics : List DeviceMetric
deriving DecidableEq

/-- metrics.py `MetricValue`; the timestamp stays in epoch seconds (the
source converts it with `datetime.fromtimestamp`, an injective edge
conversion to wall-clock). -/
structure MetricValue where
  timestamp : Int
  value : Rat
deriving DecidableEq

/-- metrics.py `MetricValues`.  Its `metric` field holds the record the
assembler constructs at metrics.py line 163 through the validating
models.py `DeviceMetric` class, so it is a `Models.DeviceMetric`. -/
structure MetricValues where
  metric : Models.DeviceMetric
  device_name : String
  device_alias : String
  values : List MetricValue
deriving DecidableEq

/-- One entry of the alias-filter list metrics.py builds: the dict
`{"alias": prop.value.alias, "filter": prop.key}`. -/
structure AliasFilter where
  «alias» : String
  filter : String
deriving DecidableEq, BEq

/-- Errors the pipeline can surface.  `pointsNotFound` carries the
Python set interpolated into the `Points {set} not found` message. -/
inductive PyError
| exception (msg : String)
| attributeError (attr : String)
| keyError (key : String)
| indexError
| pointsNotFound (missing : Finset String)
| validationError (msg : String)

/-- A transport (network) invocation issued through `AtlasClient`. -/
inductive TransportCall
| filterFacilities (names : List String)
| listDevices (org agent : String)
| getPointIds (org agent : String) (aliases : List String)
| getHistoricalValues (org agent : String) (point_ids : List String)
| getHourlyRates (org agent : String)
deriving DecidableEq

/-- The remote platform's behavior, passed in explicitly: what each
transport operation would return if invoked. -/
structure Responses where
  filter_facilities : List String → Except String (List Facility)
  list_devices : String → String → Except String (List Device)
  get_point_ids : String → String → List String → Except String (List (String × String))
  get_historical_values : String → String → List String → Except String (List HistoricalValues)
  get_hourly_rates : String → String → Except String HourlyRates

namespace MetricsReader

/-- metrics.py `_get_alias_filters`, exact-name passes: properties
whose key is in the set of declared metric names, tagged with the key
as the filter label. -/
def exactAliasFilters (device : Device) (metrics : List DeviceMetric) : List AliasFilter :=
  let metric_names : List (Option String) := metrics.map (fun m => m.name)
  (device.properties.filter (fun p => metric_names.contains (some p.key))).map
    (fun p => { «alias» := p.value.alias, filter := p.key })

/-- The compiled patterns of the declared metrics whose `alias_regex`
is truthy (neither `None` nor the empty string). -/
def metricRegexps (metrics : List DeviceMetric) : List Regex :=
  (metrics.filter (fun m => m.alias_regex.getD "" ≠ "")).map
    (fun m => parseRegex (m.alias_regex.getD ""))

/-- metrics.py `_get_alias_filters`, regex passes: properties whose
alias is matched from the start by any compiled pattern, again tagged
with the property key. -/
def regexAliasFilters (device : Device) (metrics : List DeviceMetric) : List AliasFilter :=
  (device.properties.filter
      (fun p => (metricRegexps metrics).any (fun rx => reMatchB rx p.value.alias))).map
    (fun p => { «alias» := p.value.alias, filter := p.key })

/-- metrics.py `_get_alias_filters`: the exact-name filters with the
regex filters appended (`filters.extend(regex_filters)`). -/
def get_alias_filters (device : Device) (metrics : List DeviceMetric) : List AliasFilter :=
  exactAliasFilters device metrics ++ regexAliasFilters device metrics

/-- metrics.py `_get_point_ids`.  `resp` is what
`client.get_point_ids` would return (the platform's alias→point-id
dict as an association list, or a transport failure).  An empty alias
list fails before any call; a size mismatch between the returned
mapping and the requested alias list fails naming
`set(aliases) - set(point_map.keys())`. -/
def get_point_ids (facility_short_name : String) (aliases : List String)
    (resp : Except String (List (String × String))) :
    Except PyError (List (String × String)) :=
  if aliases.isEmpty then
    .error (.exception ("No aliases found for facility " ++ facility_short_name))
  else
    match resp with
    | .error e => .error (.exception ("Error listing points for facility: " ++ e))
    | .ok point_map =>
      if point_map.length ≠ aliases.length then
        .error (.pointsNotFound (aliases.toFinset \ (point_map.map Prod.fst).toFinset))
      else
        .ok point_map

/-- The first `next(...)` reverse lookup in
`_process_historical_values`: the alias mapped to the record's point
id, `None` when the point id is not a value of the mapping. -/
def lookupPointAlias (point_map : List (String × String)) (point_id : String) :
    Option String :=
  (point_map.find? (fun e => e.2 == point_id)).map Prod.fst

/-- The second `next(...)` reverse lookup: the filter label of the
alias-filter entry whose alias equals the recovered alias (a string
never equals `None`, so a missing alias yields `None` here too). -/
def lookupPointFilter (alias_filters : List AliasFilter) (point_alias : Option String) :
    Option String :=
  (alias_filters.find? (fun af => some af.alias == point_alias)).map
    (fun af => af.filter)

/-- The value-extraction step of `_process_historical_values`: the
analog arrays when the analog variant is populated, otherwise the
discrete arrays (booleans as 1/0 floats), otherwise empty arrays;
timestamps zipped with values pairwise. -/
def assembleValues (pv : PointValues) : List (Int × Rat) :=
  match pv.analog with
  | some a => a.timestamps.zip a.values
  | none =>
    match pv.discrete with
    | some dv => dv.timestamps.zip (dv.values.map (fun b => if b then 1 else 0))
    | none => []

/-- The pydantic construction
`DeviceMetric(name=point_filter, device_kind=device.kind)` performed at
metrics.py line 163: it calls the validating models.py class, so `name`
is a required field that must carry a `DeviceMetricName` union value (a
null or non-enum filter label raises `ValidationError`), and the
device's kind string must coerce into `DeviceKind`. -/
def constructDeviceMetric (point_filter : Option String) (kind : String) :
    Except PyError Models.DeviceMetric :=
  match point_filter with
  | none => .error (.validationError "name")
  | some n =>
    if DeviceMetricNameValues.contains n then
      match parseDeviceKind kind with
      | none => .error (.validationError "device_kind")
      | some k => .ok { name := n, device_kind := k }
    else
      .error (.validationError "name")

/-- The per-record body of `_process_historical_values`: reverse-look
up the point alias and filter label, select the `"avg"` aggregation
kind's `PointValues` (a missing key would be a `KeyError`), construct
the metric through the validating models.py `DeviceMetric` class (which
raises on a null or non-enum filter label), and build the
`MetricValues` record. -/
def processHistoricalValue (device : Device) (alias_filters : List AliasFilter)
    (point_map : List (String × String)) (hv : HistoricalValues) :
    Except PyError MetricValues :=
  let point_alias := lookupPointAlias point_map hv.point_id
  let point_filter := lookupPointFilter alias_filters point_alias
  match hv.values.lookup AggregateBy.avg with
  | none => .error (.keyError "avg")
  | some point_values =>
    match constructDeviceMetric point_filter device.kind with
    | .error e => .error e
    | .ok metric =>
      .ok { metric := metric
            device_name := device.name
            device_alias := device.alias
            values := (assembleValues point_values).map
              (fun tv => { timestamp := tv.1, value := tv.2 }) }

/-- Appending to `result[facility.short_name]` where `result` is a
`defaultdict(list)` (insertion order of keys preserved). -/
def appendResult (acc : List (String × List MetricValues)) (key : String)
    (mv : MetricValues) : List (String × List MetricValues) :=
  match acc with
  | [] => [(key, [mv])]
  | (k, vs) :: rest =>
    if k = key then (k, vs ++ [mv]) :: rest
    else (k, vs) :: appendResult rest key mv

/-- metrics.py `_process_historical_values`: fold the per-record body
over the fetched records, accumulating into the per-facility result
mapping. -/
def process_historical_values (acc : List (String × List MetricValues))
    (short_name : String) (device : Device) (alias_filters : List AliasFilter)
    (point_map : List (String × String)) :
    List HistoricalValues → Except PyError (List (String × List MetricValues))
| [] => .ok acc
| hv :: rest =>
  match processHistoricalValue device alias_filters point_map hv with
  | .error e => .error e
  | .ok mv => process_historical_values (appendResult acc short_name mv) short_name
      device alias_filters point_map rest

/-- The per-device body of `MetricsReader.read`'s inner loop: filter
the declared metrics to the device's kind, match aliases, resolve point
ids, fetch historical values, assemble.  Returns the transport calls it
issued alongside the outcome. -/
def processDevice (resp : Responses) (f : Filter) (fac : Facility) (agent_id : String)
    (acc : List (String × List MetricValues)) (device : Device) :
    List TransportCall × Except PyError (List (String × List MetricValues)) :=
  let metrics_filter := f.metrics.filter (fun m => m.device_kind.toStr == device.kind)
  if metrics_filter.isEmpty then ([], .ok acc)
  else
    let alias_filters := get_alias_filters device metrics_filter
    if alias_filters.isEmpty then ([], .ok acc)
    else
      let aliases := alias_filters.map (fun af => af.alias)
      if aliases.isEmpty then
        ([], .error (.exception ("No aliases found for facility " ++ fac.short_name)))
      else
        let call := TransportCall.getPointIds fac.organization_id agent_id aliases
        match get_point_ids fac.short_name aliases
            (resp.get_point_ids fac.organization_id agent_id aliases) with
        | .error e => ([call], .error e)
        | .ok point_map =>
          let hvcall := TransportCall.getHistoricalValues fac.organization_id agent_id
            (point_map.map Prod.snd)
          match resp.get_historical_values fac.organization_id agent_id
              (point_map.map Prod.snd) with
          | .error e => ([call, hvcall],
              .error (.exception ("Error retrieving historical values for facility "
                ++ fac.display_name ++ ": " ++ e)))
          | .ok hvalues =>
            match process_historical_values acc fac.short_name device alias_filters
                point_map hvalues with
            | .error e => ([call, hvcall], .error e)
            | .ok acc2 => ([call, hvcall], .ok acc2)

/-- The device loop of `MetricsReader.read` for one facility. -/
def processDevices (resp : Responses) (f : Filter) (fac : Facility) (agent_id : String)
    (acc : List (String × List MetricValues)) :
    List Device → List TransportCall × Except PyError (List (String × List MetricValues))
| [] => ([], .ok acc)
| d :: rest =>
  match processDevice resp f fac agent_id acc d with
  | (calls, .error e) => (calls, .error e)
  | (calls, .ok acc2) =>
    match processDevices resp f fac agent_id acc2 rest with
    | (calls2, out) => (calls ++ calls2, out)

/-- The facility loop of `MetricsReader.read`: take the first agent
(`facility.agents[0]`, an `IndexError` when there is none), list the
facility's devices, then run the device loop. -/
def processFacilities (resp : Responses) (f : Filter)
    (acc : List (String × List MetricValues)) :
    List Facility → List TransportCall × Except PyError (List (String × List MetricValues))
| [] => ([], .ok acc)
| fac :: rest =>
  match fac.agents.head? with
  | none => ([], .error .indexError)
  | some agent =>
    let dcall := TransportCall.listDevices fac.organization_id agent.agent_id
    match resp.list_devices fac.organization_id agent.agent_id with
    | .error e => ([dcall],
        .error (.exception ("Error listing devices for facility " ++ fac.display_name
          ++ ": " ++ e)))
    | .ok devices =>
      match processDevices resp f fac agent.agent_id acc devices with
      | (calls, .error e) => (dcall :: calls, .error e)
      | (calls, .ok acc2) =>
        match processFacilities resp f acc2 rest with
        | (calls2, out) => (dcall :: (calls ++ calls2), out)

/-- metrics.py `MetricsReader.read`: entry validation (non-empty metric
list, every metric valid for its kind), then facility resolution via
`self.client.filter_facilities` — an attribute that
`AtlasClient` does not define, so the attribute access raises before
any call can be issued — then the facility loop.  Returns the
transport-call trace alongside the outcome. -/
def read (resp : Responses) (f : Filter) :
    List TransportCall × Except PyError (List (String × List MetricValues)) :=
  if f.metrics.isEmpty then ([], .error (.exception "No metrics provided"))
  else
    match f.metrics.find? (fun m => ! is_valid_metric m) with
    | some _ => ([], .error (.exception "Invalid metrics type"))
    | none =>
      if AtlasClient.methodNames.contains "filter_facilities" then
        match resp.filter_facilities f.facilities with
        | .error e => ([.filterFacilities f.facilities], .error (.exception e))
        | .ok facilities =>
          match processFacilities resp f [] facilities with
          | (calls, out) => (.filterFacilities f.facilities :: calls, out)
      else
        ([], .error (.attributeError "filter_facilities"))

end MetricsReader

namespace RatesReader

/-- rates.py `RateFilter`. -/
structure RateFilter where
  facilities : List String
deriving DecidableEq

/-- The per-facility rates loop of `RatesReader.read`. -/
def processRates (resp : Responses) (acc : List (String × HourlyRates)) :
    List Facility → List TransportCall × Except PyError (List (String × HourlyRates))
| [] => ([], .ok acc)
| fac :: rest =>
  match fac.agents.head? with
  | none => ([], .error .indexError)
  | some agent =>
    let call := TransportCall.getHourlyRates fac.organization_id agent.agent_id
    match resp.get_hourly_rates fac.organization_id agent.agent_id with
    | .error e => ([call],
        .error (.exception ("Error retrieving rates for facility " ++ fac.display_name
          ++ ": " ++ e)))
    | .ok rates =>
      match processRates resp (acc ++ [(fac.short_name, rates)]) rest with
      | (calls, out) => (call :: calls, out)

/-- rates.py `RatesReader.read`: its very first step is
`self.client.filter_facilities(filter.facilities)`, an attribute
`AtlasClient` does not define, so the attribute access raises before
the start/end defaults are even computed.  `now` parameterizes the
defaults of the (unreachable) remainder. -/
def read (resp : Responses) (now : PyDatetime) (f : RateFilter)
    (start end_ : Option PyDatetime) :
    List TransportCall × Except PyError (List (String × HourlyRates)) :=
  if AtlasClient.methodNames.contains "filter_facilities" then
    match resp.filter_facilities f.facilities with
    | .error e => ([.filterFacilities f.facilities], .error (.exception e))
    | .ok facilities =>
      let _start := start.getD (subSeconds now (24 * 60 * 60))
      let _end := end_.getD now
      match processRates resp [] facilities with
      | (calls, out) => (.filterFacilities f.facilities :: calls, out)
  else
    ([], .error (.attributeError "filter_facilities"))

end RatesReader

/-- Whether a pipeline outcome is a raised error. -/
def resultIsError {α : Type} : Except PyError α → Bool
| .error _ => true
| .ok _ => false

/-- The characters that can appear in the fixed
`"%Y-%m-%dT%H:%M:%SZ"` serialization. -/
def isoCharSet : List Char :=
  ['0', '1', '2', '3', '4', '5', '6', '7', '8', '9', '-', 'T', ':', 'Z']

end Atlas

open Atlas

/-! ### Helper lemmas -/

theorem decDigit_mem_isoCharSet (n : Nat) : decDigit n ∈ isoCharSet := by
  have h : n % 10 < 10 := Nat.mod_lt _ (by omega)
  show Char.ofNat (48 + n % 10) ∈ _
  set k := n % 10 with hk
  interval_cases k <;> decide

theorem mem_natDigitsCore_isoCharSet (fuel : Nat) :
    ∀ n, ∀ c ∈ natDigitsCore fuel n, c ∈ isoCharSet := by
  induction fuel with
  | zero =>
    intro n c hc
    exact absurd hc (List.not_mem_nil c)
  | succ fuel ih =>
    intro n c hc
    unfold natDigitsCore at hc
    by_cases h : n < 10
    · simp only [h, if_true, List.mem_singleton] at hc
      exact hc ▸ decDigit_mem_isoCharSet n
    · simp only [h, if_false, List.mem_append, List.mem_singleton] at hc
      rcases hc with hc | hc
      · exact ih (n / 10) c hc
      · exact hc ▸ decDigit_mem_isoCharSet n

theorem mem_natDigits_isoCharSet (n : Nat) : ∀ c ∈ natDigits n, c ∈ isoCharSet :=
  mem_natDigitsCore_isoCharSet (n + 1) n

theorem mem_padNat_isoCharSet (w n : Nat) : ∀ c ∈ padNat w n, c ∈ isoCharSet := by
  intro c hc
  rcases List.mem_append.mp hc with h | h
  · rcases List.eq_of_mem_replicate h with rfl
    decide
  · exact mem_natDigits_isoCharSet n c h

theorem mem_yearChars_isoCharSet (y : Int) : ∀ c ∈ yearChars y, c ∈ isoCharSet := by
  intro c hc
  unfold yearChars at hc
  by_cases h : y < 0
  · simp only [h, if_true, List.mem_cons] at hc
    rcases hc with rfl | hc
    · decide
    · exact mem_padNat_isoCharSet 4 y.natAbs c hc
  · simp only [h, if_false] at hc
    exact mem_padNat_isoCharSet 4 y.toNat c hc

theorem mem_isoChars_isoCharSet (s : Int) : ∀ c ∈ isoChars s, c ∈ isoCharSet := by
  intro c hc
  unfold isoChars at hc
  simp only [List.mem_flatten] at hc
  obtain ⟨l, hl, hcl⟩ := hc
  fin_cases hl
  · exact mem_yearChars_isoCharSet _ c hcl
  · rcases List.mem_singleton.mp hcl with rfl; decide
  · exact mem_padNat_isoCharSet _ _ c hcl
  · rcases List.mem_singleton.mp hcl with rfl; decide
  · exact mem_padNat_isoCharSet _ _ c hcl
  · rcases List.mem_singleton.mp hcl with rfl; decide
  · exact mem_padNat_isoCharSet _ _ c hcl
  · rcases List.mem_singleton.mp hcl with rfl; decide
  · exact mem_padNat_isoCharSet _ _ c hcl
  · rcases List.mem_singleton.mp hcl with rfl; decide
  · exact mem_padNat_isoCharSet _ _ c hcl
  · rcases List.mem_singleton.mp hcl with rfl; decide

theorem matchFrom_iff_prefix (l : List Char) :
    ∀ r : Regex, matchFrom r l = true ↔
      ∃ k, k ≤ l.length ∧ accepts r (l.take k) = true := by
  induction l with
  | nil =>
    intro r
    constructor
    · intro h
      exact ⟨0, Nat.le_refl 0, h⟩
    · rintro ⟨k, hk, h⟩
      simpa using h
  | cons c cs ih =>
    intro r
    simp only [matchFrom, Bool.or_eq_true]
    constructor
    · rintro (h | h)
      · exact ⟨0, Nat.zero_le _, h⟩
      · obtain ⟨k, hk, hacc⟩ := (ih (deriv r c)).mp h
        refine ⟨k + 1, by simpa using Nat.succ_le_succ hk, ?_⟩
        simpa [accepts] using hacc
    · rintro ⟨k, hk, hacc⟩
      cases k with
      | zero =>
        left
        simpa [accepts] using hacc
      | succ k =>
        right
        refine (ih (deriv r c)).mpr ⟨k, ?_, ?_⟩
        · simpa using Nat.succ_le_succ_iff.mp (by simpa using hk)
        · simpa [accepts] using hacc

theorem lookupPointFilter_of_none (afs : List AliasFilter) :
    MetricsReader.lookupPointFilter afs none = none := by
  unfold MetricsReader.lookupPointFilter
  rw [List.find?_eq_none.mpr]
  · rfl
  · intro af _
    simp

/-! ### Claim theorems -/

/-- C1: for every facility, non-empty requested alias list and returned
mapping whose size differs from the requested alias count, point
resolution fails with an error naming exactly the set difference
between the requested aliases and the returned mapping's keys. -/
theorem atlas_c1_missing_aliases_named (fac : String) (aliases : List String)
    (pm : List (String × String)) (hne : aliases ≠ [])
    (hnodup : (pm.map Prod.fst).Nodup) (hlen : pm.length ≠ aliases.length) :
    MetricsReader.get_point_ids fac aliases (.ok pm)
      = .error (.pointsNotFound (aliases.toFinset \ (pm.map Prod.fst).toFinset))
    ∧ ∀ x, x ∈ aliases.toFinset \ (pm.map Prod.fst).toFinset ↔
        x ∈ aliases ∧ ¬ x ∈ pm.map Prod.fst := by
  have hempty : aliases.isEmpty = false := by
    cases aliases with
    | nil => exact absurd rfl hne
    | cons a as => rfl
  constructor
  · unfold MetricsReader.get_point_ids
    simp [hempty, hlen]
  · intro x
    simp [Finset.mem_sdiff, List.mem_toFinset]

/-- C1 witness: requesting `["a","b","c"]` and receiving
`{"a":"p1","b":"p2"}` fails naming exactly `{"c"}`. -/
theorem atlas_c1_missing_aliases_named_witness :
    MetricsReader.get_point_ids "facility1" ["a", "b", "c"]
        (.ok [("a", "p1"), ("b", "p2")])
      = .error (.pointsNotFound {"c"}) := by
  have h := atlas_c1_missing_aliases_named "facility1" ["a", "b", "c"]
    [("a", "p1"), ("b", "p2")] (by decide) (by decide) (by decide)
  have hs : (["a", "b", "c"].toFinset
      \ ([("a", "p1"), ("b", "p2")].map Prod.fst).toFinset) = ({"c"} : Finset String) := by
    decide
  rw [h.1, hs]

/-- C2: contrary to the claim, assembly of a fetched record whose
point id is absent from the alias-to-point-id mapping does NOT complete
without raising: the reverse lookups do yield a null filter label (the
claimed tolerance in the lookup code), but the construction
`DeviceMetric(name=point_filter, device_kind=device.kind)` at
metrics.py line 163 goes through the validating models.py class, whose
required enum-valued `name` field rejects `None` — so the record for
point id `p9`, absent from the mapping `{"a1": "p1"}`, raises a
`ValidationError` instead of producing a null-labelled
`MetricValues`. -/
theorem atlas_c2_null_label_raises_validation_error :
    MetricsReader.lookupPointAlias [("a1", "p1")] "p9" = none
    ∧ MetricsReader.lookupPointFilter [{ «alias» := "a1", filter := "SuctionPressure" }]
        (MetricsReader.lookupPointAlias [("a1", "p1")] "p9") = none
    ∧ MetricsReader.constructDeviceMetric none "compressor"
        = .error (.validationError "name")
    ∧ MetricsReader.processHistoricalValue
        { id := "d1", name := "Compressor 1", «alias» := "comp1", kind := "compressor" }
        [{ «alias» := "a1", filter := "SuctionPressure" }]
        [("a1", "p1")]
        { point_id := "p9",
          values := [(AggregateBy.avg,
            { analog := some { timestamps := [0], values := [1] } })] }
      = .error (.validationError "name") :=
  ⟨rfl, rfl, rfl, rfl⟩

/-- C5: assembly selects the `"avg"` aggregation kind's `PointValues`,
pairs timestamps with values of the populated variant index by index
(booleans as 1/0 for the discrete variant), and yields an empty series,
not an error, when neither variant is populated.  The record is
produced whenever the recovered filter label passes the models.py
`DeviceMetric` name validation (a null or non-enum label raises there
instead; see the C2 divergence). -/
theorem atlas_c5_avg_zip_assembly (device : Device) (afs : List AliasFilter)
    (pm : List (String × String)) (hv : HistoricalValues) (pv : PointValues)
    (n : String) (k : DeviceKind)
    (havg : hv.values.lookup AggregateBy.avg = some pv)
    (hfil : MetricsReader.lookupPointFilter afs
        (MetricsReader.lookupPointAlias pm hv.point_id) = some n)
    (hname : DeviceMetricNameValues.contains n = true)
    (hkind : parseDeviceKind device.kind = some k) :
    (MetricsReader.processHistoricalValue device afs pm hv
      = .ok { metric := { name := n, device_kind := k }
              device_name := device.name
              device_alias := device.alias
              values := (MetricsReader.assembleValues pv).map
                (fun tv => { timestamp := tv.1, value := tv.2 }) })
    ∧ (∀ a, pv.analog = some a →
        MetricsReader.assembleValues pv = a.timestamps.zip a.values
        ∧ ∀ (i : Nat) (t : Int) (v : Rat), a.timestamps.get? i = some t →
            a.values.get? i = some v →
            (MetricsReader.assembleValues pv).get? i = some (t, v))
    ∧ (∀ dv, pv.analog = none → pv.discrete = some dv →
        MetricsReader.assembleValues pv
          = dv.timestamps.zip (dv.values.map (fun b => if b then 1 else 0)))
    ∧ (pv.analog = none → pv.discrete = none →
        MetricsReader.assembleValues pv = []) := by
  refine ⟨?_, ?_, ?_, ?_⟩
  · unfold MetricsReader.processHistoricalValue
    rw [havg]
    have hmem : n ∈ DeviceMetricNameValues := by simpa using hname
    simp [MetricsReader.constructDeviceMetric, hfil, hname, hkind, hmem]
  · intro a ha
    have hzip : MetricsReader.assembleValues pv = a.timestamps.zip a.values := by
      unfold MetricsReader.assembleValues
      rw [ha]
    refine ⟨hzip, ?_⟩
    intro i t v ht hvv
    rw [hzip]
    exact (List.get?_zip_eq_some _ _ (t, v) i).mpr ⟨ht, hvv⟩
  · intro dv ha hd
    unfold MetricsReader.assembleValues
    rw [ha, hd]
  · intro ha hd
    unfold MetricsReader.assembleValues
    rw [ha, hd]

/-- C5 witness: analog arrays `timestamps=[0,60]`, `values=[1.5,2.5]`
yield exactly the two entries pairing index 0 with index 0 and index 1
with index 1, in order. -/
theorem atlas_c5_avg_zip_assembly_witness :
    MetricsReader.processHistoricalValue
        { id := "d1", name := "Compressor 1", «alias» := "comp1", kind := "compressor" }
        [{ «alias» := "a1", filter := "SuctionPressure" }]
        [("a1", "p1")]
        { point_id := "p1",
          values := [(AggregateBy.avg,
            { analog := some { timestamps := [0, 60], values := [3/2, 5/2] } })] }
      = .ok { metric := { name := "SuctionPressure",
                          device_kind := DeviceKind.compressor }
              device_name := "Compressor 1"
              device_alias := "comp1"
              values := [{ timestamp := 0, value := 3/2 },
                         { timestamp := 60, value := 5/2 }] }
    ∧ (MetricsReader.assembleValues
        { analog := some { timestamps := [0, 60], values := [3/2, 5/2] } }).get? 0
      = some (0, 3/2)
    ∧ (MetricsReader.assembleValues
        { analog := some { timestamps := [0, 60], values := [3/2, 5/2] } }).get? 1
      = some (60, 5/2) := by
  have h := atlas_c5_avg_zip_assembly
    { id := "d1", name := "Compressor 1", «alias» := "comp1", kind := "compressor" }
    [{ «alias» := "a1", filter := "SuctionPressure" }]
    [("a1", "p1")]
    { point_id := "p1",
      values := [(AggregateBy.avg,
        { analog := some { timestamps := [0, 60], values := [3/2, 5/2] } })] }
    { analog := some { timestamps := [0, 60], values := [3/2, 5/2] } }
    "SuctionPressure" DeviceKind.compressor rfl rfl rfl rfl
  refine ⟨h.1, ?_, ?_⟩
  · exact (h.2.1 _ rfl).2 0 0 (3/2) rfl rfl
  · exact (h.2.1 _ rfl).2 1 60 (5/2) rfl rfl

/-- C7: a property whose key equals any declared metric's name is
included by the exact rule, tagged with that key as the filter label;
the matcher's output is the exact matches with the regex matches
appended, so occurrence counts add up and a property satisfying both
rules appears once per matching rule (duplicates kept). -/
theorem atlas_c7_exact_match_union_duplicates (d : Device) (ms : List DeviceMetric) :
    (∀ p ∈ d.properties, (ms.map (fun m => m.name)).contains (some p.key) = true →
      AliasFilter.mk p.value.alias p.key ∈ MetricsReader.exactAliasFilters d ms
      ∧ AliasFilter.mk p.value.alias p.key ∈ MetricsReader.get_alias_filters d ms)
    ∧ MetricsReader.get_alias_filters d ms
        = MetricsReader.exactAliasFilters d ms ++ MetricsReader.regexAliasFilters d ms
    ∧ ∀ af : AliasFilter, (MetricsReader.get_alias_filters d ms).count af
        = (MetricsReader.exactAliasFilters d ms).count af
          + (MetricsReader.regexAliasFilters d ms).count af := by
  refine ⟨?_, rfl, ?_⟩
  · intro p hp hk
    have h1 : AliasFilter.mk p.value.alias p.key ∈ MetricsReader.exactAliasFilters d ms := by
      unfold MetricsReader.exactAliasFilters
      exact List.mem_map_of_mem _ (List.mem_filter.mpr ⟨hp, hk⟩)
    exact ⟨h1, List.mem_append_left _ h1⟩
  · intro af
    exact List.count_append af _ _

/-- C7 witness: a property matched by both the exact rule and a regex
rule appears twice in the matcher's output, once per rule. -/
theorem atlas_c7_exact_match_union_duplicates_witness :
    AliasFilter.mk "c1_sp" "SuctionPressure" ∈ MetricsReader.get_alias_filters
        { id := "d7", name := "Compressor 7", «alias» := "comp7", kind := "compressor",
          properties := [⟨"SuctionPressure", ⟨"c1_sp", "Suction Pressure", "analog", "none"⟩⟩] }
        [{ name := some "SuctionPressure", alias_regex := some "c1.*",
           device_kind := DeviceKind.compressor }]
    ∧ (MetricsReader.get_alias_filters
        { id := "d7", name := "Compressor 7", «alias» := "comp7", kind := "compressor",
          properties := [⟨"SuctionPressure", ⟨"c1_sp", "Suction Pressure", "analog", "none"⟩⟩] }
        [{ name := some "SuctionPressure", alias_regex := some "c1.*",
           device_kind := DeviceKind.compressor }]).count
        (AliasFilter.mk "c1_sp" "SuctionPressure") = 2 := by
  have h := atlas_c7_exact_match_union_duplicates
    { id := "d7", name := "Compressor 7", «alias» := "comp7", kind := "compressor",
      properties := [⟨"SuctionPressure", ⟨"c1_sp", "Suction Pressure", "analog", "none"⟩⟩] }
    [{ name := some "SuctionPressure", alias_regex := some "c1.*",
       device_kind := DeviceKind.compressor }]
  refine ⟨(h.1 ⟨"SuctionPressure", ⟨"c1_sp", "Suction Pressure", "analog", "none"⟩⟩
    (by decide) (by decide)).2, ?_⟩
  rw [h.2.2 (AliasFilter.mk "c1_sp" "SuctionPressure")]
  decide

/-- C8: the regex rule includes a property exactly when some prefix of
its alias is accepted (match-from-start semantics): the matcher's
primitive is characterized by prefix acceptance, a declaration with
only a non-empty regex filters a one-property device by that primitive,
`"ab"` matches `"abc"` from the start though not as a full match, and
`"bc"` does not match `"abc"` from the start though a substring search
finds it. -/
theorem atlas_c8_match_from_start_semantics :
    (∀ (rx : Regex) (s : String), reMatchB rx s = true ↔
      ∃ k, k ≤ s.data.length ∧ accepts rx (s.data.take k) = true)
    ∧ (∀ (d : Device) (m : DeviceMetric) (p : Property) (r : String),
        d.properties = [p] → m.name = none → m.alias_regex = some r → r ≠ "" →
        MetricsReader.get_alias_filters d [m]
          = if reMatchB (parseRegex r) p.value.alias then
              [AliasFilter.mk p.value.alias p.key]
            else [])
    ∧ (reMatchB (parseRegex "ab") "abc" = true
        ∧ reFullmatchB (parseRegex "ab") "abc" = false)
    ∧ (reMatchB (parseRegex "bc") "abc" = false
        ∧ reSearchB (parseRegex "bc") "abc" = true) := by
  refine ⟨?_, ?_, by decide, by decide⟩
  · intro rx s
    exact matchFrom_iff_prefix s.data rx
  · intro d m p r hprops hname halias hr
    unfold MetricsReader.get_alias_filters MetricsReader.exactAliasFilters
      MetricsReader.regexAliasFilters MetricsReader.metricRegexps
    rw [hprops]
    by_cases h : reMatchB (parseRegex r) p.value.alias <;>
      simp [hname, halias, hr, h]

/-- C8 witness: a device property with alias `"abc"` is included by a
metric declaring only the regex `"ab"` (a proper prefix match) and is
excluded by a metric declaring only the regex `"bc"` (which occurs only
as an inner substring). -/
theorem atlas_c8_match_from_start_semantics_witness :
    MetricsReader.get_alias_filters
        { id := "d8", name := "Dev 8", «alias» := "dev8", kind := "compressor",
          properties := [⟨"k1", ⟨"abc", "n", "analog", "b"⟩⟩] }
        [{ name := none, alias_regex := some "ab", device_kind := DeviceKind.compressor }]
      = [AliasFilter.mk "abc" "k1"]
    ∧ MetricsReader.get_alias_filters
        { id := "d8", name := "Dev 8", «alias» := "dev8", kind := "compressor",
          properties := [⟨"k1", ⟨"abc", "n", "analog", "b"⟩⟩] }
        [{ name := none, alias_regex := some "bc", device_kind := DeviceKind.compressor }]
      = [] := by
  have h := atlas_c8_match_from_start_semantics
  constructor
  · rw [h.2.1
      { id := "d8", name := "Dev 8", «alias» := "dev8", kind := "compressor",
        properties := [⟨"k1", ⟨"abc", "n", "analog", "b"⟩⟩] }
      { name := none, alias_regex := some "ab", device_kind := DeviceKind.compressor }
      { key := "k1",
        value := { «alias» := "abc", name := "n", kind := "analog", bias := "b" } }
      "ab" rfl rfl rfl (by decide)]
    simp [h.2.2.1.1]
  · rw [h.2.1
      { id := "d8", name := "Dev 8", «alias» := "dev8", kind := "compressor",
        properties := [⟨"k1", ⟨"abc", "n", "analog", "b"⟩⟩] }
      { name := none, alias_regex := some "bc", device_kind := DeviceKind.compressor }
      { key := "k1",
        value := { «alias» := "abc", name := "n", kind := "analog", bias := "b" } }
      "bc" rfl rfl rfl (by decide)]
    simp [h.2.2.2.1]

/-- C9: with an alias-filter list holding two entries for the same
alias (one property matched by both the exact and the regex rule),
point resolution fails naming the empty set although the platform's
mapping resolves every distinct requested alias, because the mapping's
size is compared against the length of the non-deduplicated alias
list. -/
theorem atlas_c9_duplicate_alias_empty_set_error :
    MetricsReader.get_alias_filters
        { id := "d9", name := "Compressor 9", «alias» := "comp9", kind := "compressor",
          properties := [⟨"SuctionPressure", ⟨"comp_sp", "Suction Pressure", "analog", "none"⟩⟩] }
        [{ name := some "SuctionPressure", alias_regex := some "comp.*",
           device_kind := DeviceKind.compressor }]
      = [AliasFilter.mk "comp_sp" "SuctionPressure",
         AliasFilter.mk "comp_sp" "SuctionPressure"]
    ∧ (["comp_sp", "comp_sp"].all
        (fun a => ([("comp_sp", "p1")].map Prod.fst).contains a)) = true
    ∧ MetricsReader.get_point_ids "fac9" ["comp_sp", "comp_sp"]
        (.ok [("comp_sp", "p1")])
      = .error (.pointsNotFound ∅) := by
  refine ⟨by decide, by decide, ?_⟩
  have hs : (["comp_sp", "comp_sp"].toFinset
      \ ([("comp_sp", "p1")].map Prod.fst).toFinset) = (∅ : Finset String) := by
    decide
  unfold MetricsReader.get_point_ids
  simp [hs]

/-- C3: models.py's `DeviceMetric` declaration does NOT support a
regex-only metric: the construction used at
src/examples/read_metrics.py line 22 (`alias_regex` only, no `name`) is
rejected because `name` is a required field, the class declares no
`alias_regex` field at all, and only name-carrying declarations
construct. -/
theorem atlas_c3_regex_only_declaration_rejected :
    Models.validateDeviceMetric
        { name := none, alias_regex := some ".*_motorCurrent",
          device_kind := DeviceKind.compressor }
      = .error "Field required: name"
    ∧ Models.DeviceMetric.fieldNames.contains "alias_regex" = false
    ∧ Models.validateDeviceMetric
        { name := some "SuctionPressure", alias_regex := none,
          device_kind := DeviceKind.compressor }
      = .ok { name := "SuctionPressure", device_kind := DeviceKind.compressor } :=
  ⟨rfl, rfl, rfl⟩

/-- C4: a filter with an empty metric list, or one containing a metric
whose exact name is outside the enumerated set for its device kind,
makes `read` raise at entry with an empty transport-call trace. -/
theorem atlas_c4_entry_validation_before_network (resp : Responses) (f : Filter)
    (h : f.metrics = [] ∨ ∃ m ∈ f.metrics, ∃ n, m.name = some n
      ∧ (device_metric_mapping m.device_kind).contains n = false) :
    (MetricsReader.read resp f).1 = []
    ∧ resultIsError (MetricsReader.read resp f).2 = true := by
  rcases h with h | ⟨m, hm, n, hn, hinvalid⟩
  · obtain ⟨facs, mets⟩ := f
    dsimp at h
    subst h
    exact ⟨rfl, rfl⟩
  · have hne : f.metrics.isEmpty = false := by
      cases hf : f.metrics with
      | nil => rw [hf] at hm; cases hm
      | cons a as => rfl
    have hbad : is_valid_metric m = false := by
      unfold is_valid_metric
      rw [hn]
      exact hinvalid
    cases hfind : f.metrics.find? (fun mm => ! is_valid_metric mm) with
    | none =>
      exfalso
      have hall := List.find?_eq_none.mp hfind m hm
      simp [hbad] at hall
    | some m2 =>
      constructor <;> simp [MetricsReader.read, hne, hfind, resultIsError]

/-- C4 witness: a metric named `SupplyTemperature` (an evaporator
metric) declared for kind `compressor` fails entry validation with zero
transport invocations. -/
theorem atlas_c4_entry_validation_before_network_witness :
    (MetricsReader.read
        ⟨fun _ => .ok [], fun _ _ => .ok [], fun _ _ _ => .ok [],
         fun _ _ _ => .ok [], fun _ _ => .ok {}⟩
        { facilities := ["plant1"],
          metrics := [{ name := some "SupplyTemperature", alias_regex := none,
                        device_kind := DeviceKind.compressor }] }).1 = []
    ∧ resultIsError (MetricsReader.read
        ⟨fun _ => .ok [], fun _ _ => .ok [], fun _ _ _ => .ok [],
         fun _ _ _ => .ok [], fun _ _ => .ok {}⟩
        { facilities := ["plant1"],
          metrics := [{ name := some "SupplyTemperature", alias_regex := none,
                        device_kind := DeviceKind.compressor }] }).2 = true := by
  exact atlas_c4_entry_validation_before_network _ _
    (Or.inr ⟨{ name := some "SupplyTemperature", alias_regex := none,
               device_kind := DeviceKind.compressor },
      List.mem_singleton.mpr rfl, "SupplyTemperature", rfl, rfl⟩)

/-- C6: with start or end unspecified, the historical-values payload
defaults the window to now minus 10 minutes through now, serialized at
second precision (the microsecond component is ignored and no `.`
appears in the rendered bound), and applies the defaults interval=60,
aggregate_by=["avg"], changes_only=false, scaled=true. -/
theorem atlas_c6_default_window_and_serialization (now : PyDatetime)
    (pids : List String) (s e : Option PyDatetime) :
    ((AtlasClient.get_historical_values_payload_defaulted now pids none e).start
        = strftimeISO (subSeconds now (10 * 60))
      ∧ (AtlasClient.get_historical_values_payload_defaulted now pids s none).end_
        = strftimeISO now)
    ∧ ((AtlasClient.get_historical_values_payload_defaulted now pids s e).interval = 60
      ∧ (AtlasClient.get_historical_values_payload_defaulted now pids s e).aggregate_by
          = [AggregateBy.avg]
      ∧ (AtlasClient.get_historical_values_payload_defaulted now pids s e).changes_only
          = false
      ∧ (AtlasClient.get_historical_values_payload_defaulted now pids s e).scaled = true)
    ∧ (∀ (d : PyDatetime) (micro : Nat),
        strftimeISO { seconds := d.seconds, microsecond := micro } = strftimeISO d)
    ∧ ∀ d : PyDatetime, ¬ '.' ∈ (strftimeISO d).data := by
  refine ⟨⟨rfl, rfl⟩, ⟨rfl, rfl, rfl, rfl⟩, fun d micro => rfl, ?_⟩
  intro d hmem
  exact absurd (mem_isoChars_isoCharSet d.seconds '.' hmem) (by decide)

/-- C6 witness: at now = 2024-01-01T00:00:00.123456Z the defaulted
payload's window is 2023-12-31T23:50:00Z through 2024-01-01T00:00:00Z
(second precision, fraction dropped), with the documented defaults. -/
theorem atlas_c6_default_window_and_serialization_witness :
    (AtlasClient.get_historical_values_payload_defaulted
        { seconds := 1704067200, microsecond := 123456 } ["p1"] none none).start
      = "2023-12-31T23:50:00Z"
    ∧ (AtlasClient.get_historical_values_payload_defaulted
        { seconds := 1704067200, microsecond := 123456 } ["p1"] none none).end_
      = "2024-01-01T00:00:00Z"
    ∧ (AtlasClient.get_historical_values_payload_defaulted
        { seconds := 1704067200, microsecond := 123456 } ["p1"] none none).interval
      = 60
    ∧ (AtlasClient.get_historical_values_payload_defaulted
        { seconds := 1704067200, microsecond := 123456 } ["p1"] none none).aggregate_by
      = [AggregateBy.avg]
    ∧ (AtlasClient.get_historical_values_payload_defaulted
        { seconds := 1704067200, microsecond := 123456 } ["p1"] none none).changes_only
      = false
    ∧ (AtlasClient.get_historical_values_payload_defaulted
        { seconds := 1704067200, microsecond := 123456 } ["p1"] none none).scaled
      = true := by
  have h := atlas_c6_default_window_and_serialization
    { seconds := 1704067200, microsecond := 123456 } ["p1"] none none
  refine ⟨?_, ?_, h.2.1.1, h.2.1.2.1, h.2.1.2.2.1, h.2.1.2.2.2⟩
  · rw [h.1.1]
    decide
  · rw [h.1.2]
    decide

/-- C10: `AtlasClient` defines no `filter_facilities` method, so every
metrics read that passes entry validation, and every rates read at all,
fails with an attribute error at facility resolution with an empty
transport-call trace (no device listing, point resolution or historical
fetch is ever issued). -/
theorem atlas_c10_filter_facilities_missing :
    AtlasClient.methodNames.contains "filter_facilities" = false
    ∧ (∀ (resp : Responses) (f : Filter), f.metrics ≠ [] →
        (∀ m ∈ f.metrics, is_valid_metric m = true) →
        MetricsReader.read resp f
          = ([], .error (.attributeError "filter_facilities")))
    ∧ (∀ (resp : Responses) (now : PyDatetime) (rf : RatesReader.RateFilter)
        (s e : Option PyDatetime),
        RatesReader.read resp now rf s e
          = ([], .error (.attributeError "filter_facilities"))) := by
  have hc : AtlasClient.methodNames.contains "filter_facilities" = false := by decide
  have hnm : ¬ "filter_facilities" ∈ AtlasClient.methodNames := by decide
  refine ⟨hc, ?_, ?_⟩
  · intro resp f hne hvalid
    have hempty : f.metrics.isEmpty = false := by
      cases hf : f.metrics with
      | nil => exact absurd hf hne
      | cons a as => rfl
    have hfind : f.metrics.find? (fun m => ! is_valid_metric m) = none :=
      List.find?_eq_none.mpr (fun x hx => by simp [hvalid x hx])
    simp [MetricsReader.read, hempty, hfind, hnm]
  · intro resp now rf s e
    simp [RatesReader.read, hnm]

/-- C10 witness: a validation-passing filter (one valid compressor
metric) still fails with the `filter_facilities` attribute error and an
empty call trace, as does a rates read. -/
theorem atlas_c10_filter_facilities_missing_witness :
    MetricsReader.read
        ⟨fun _ => .ok [], fun _ _ => .ok [], fun _ _ _ => .ok [],
         fun _ _ _ => .ok [], fun _ _ => .ok {}⟩
        { facilities := ["plant1"],
          metrics := [{ name := some "SuctionPressure", alias_regex := none,
                        device_kind := DeviceKind.compressor }] }
      = ([], .error (.attributeError "filter_facilities"))
    ∧ RatesReader.read
        ⟨fun _ => .ok [], fun _ _ => .ok [], fun _ _ _ => .ok [],
         fun _ _ _ => .ok [], fun _ _ => .ok {}⟩
        { seconds := 0, microsecond := 0 } { facilities := ["plant1"] } none none
      = ([], .error (.attributeError "filter_facilities")) := by
  constructor
  · exact atlas_c10_filter_facilities_missing.2.1 _ _ (by simp)
      (fun m hm => by rcases List.mem_singleton.mp hm with rfl; rfl)
  · exact atlas_c10_filter_facilities_missing.2.2 _ _ _ none none
